import Mathlib

/-!
Shallow embedding of the payment lifecycle and reconciliation subsystem of
the binarify-academy backend.

Source files embedded here:
* `paymentController.js` (src/unnamed/part_000): `initializePayment`,
  `verifyPayment`, `handleWebhook`, `processSuccessfulCharge`, and the route
  registration `router.post('/webhook', paymentController.handleWebhook)`.
* `paymentService.js` (src/unnamed/part_004): `verifyWebhookSignature`; the
  Paystack calls (`initializePayment`, `verifyPayment`) reach an external
  gateway and are modelled as oracle inputs (`GwInitResult`, `GwVerifyResult`).
* `payment.js` model (src/unnamed/part_004): the payment schema fields.
* `Application.js` model (src/models/Application.js): the fields added by
  `applicationSchema.add` (`status`, `paymentStatus`, `payment`, `program`,
  `track`).

MongoDB documents are modelled as records; collections as lists; the mongoose
operations used by the controller (`findOne`, `findById`, `save`,
`findByIdAndUpdate`, `findByIdAndDelete`, `create`) as pure list
transformations.  Each controller operation also returns a trace of the write
operations it issued (`Event`), which is how "the cascade was executed"
is observed.
-/

namespace Binarify

/-- Payment `status` enum of the payment schema:
`['pending', 'success', 'failed', 'cancelled', 'expired']`. -/
inductive PStatus
  | pending
  | success
  | failed
  | cancelled
  | expired
deriving DecidableEq

/-- Application `status` enum: `['pending', 'approved', 'rejected', 'enrolled']`. -/
inductive AppStatus
  | pending
  | approved
  | rejected
  | enrolled
deriving DecidableEq

/-- Application `paymentStatus`.  The schema enum is
`['pending', 'paid', 'expired']`; the controller nevertheless writes
`paymentStatus: 'failed'` through `findByIdAndUpdate`, which by default does
not run enum validators, so `failed` is a storable value and is included. -/
inductive AppPayStatus
  | pending
  | paid
  | expired
  | failed
deriving DecidableEq

/-- The `data` object of a Paystack `charge.success` webhook payload, the
fields the controller reads: `data.reference` and `data.paid_at`
(timestamps are modelled as integers). -/
structure ChargeData where
  reference : String
  paid_at : Int
deriving DecidableEq

/-- The `response.data` of a Paystack `transaction.verify` call, the fields
the controller reads: `data.status` (a string compared against
`'success'`) and `data.paid_at`. -/
structure VerifyData where
  status : String
  paid_at : Int
deriving DecidableEq

/-- The payment's `metadata` bag: the opaque key/value part set at creation,
plus the two keys the controller writes (`metadata.paystackData` on verify,
`metadata.paystackWebhookData` on webhook processing). -/
structure PaymentMeta where
  base : List (String × String)
  paystackData : Option VerifyData
  paystackWebhookData : Option ChargeData
deriving DecidableEq

/-- A document of the Payment collection (payment schema of part_004).
`user` and `application` are the ObjectId links, modelled as naturals;
`paymentMethod` is constant `'paystack'` and omitted. -/
structure Payment where
  id : Nat
  user : Nat
  application : Nat
  track : String
  program : String
  amount : Int
  currency : String
  reference : String
  status : PStatus
  metadata : PaymentMeta
  paidAt : Option Int
  verified : Bool
  expiresAt : Int
deriving DecidableEq

/-- An Application document: the fields touched or framed by the payment
subsystem (`applicationSchema.add` of src/models/Application.js), plus
`email` as a representative base-schema field for the frame properties. -/
structure Application where
  id : Nat
  email : String
  status : AppStatus
  paymentStatus : AppPayStatus
  payment : Option Nat
  program : String
  track : String
deriving DecidableEq

/-- A User document: the identifier, the e-mail the controller looks up, and
the `enrolledPrograms` list targeted by the `$addToSet` update. -/
structure User where
  id : Nat
  email : String
  enrolledPrograms : List Nat
deriving DecidableEq

/-- The database state: the three collections the payment subsystem touches. -/
structure DB where
  payments : List Payment
  applications : List Application
  users : List User
deriving DecidableEq

/-- Write operations issued against the database, recorded as a trace so that
cascade executions can be counted. -/
inductive Event
  | paymentCreated (pid : Nat)
  | paymentSaved (pid : Nat)
  | paymentDeleted (pid : Nat)
  | appUpdated (aid : Nat)
  | userUpdated (uid : Nat)
deriving DecidableEq

/-- Whether an event is an `Application.findByIdAndUpdate` write.  Every
execution of the reconciliation cascade performs exactly one such write, so
counting them counts cascade executions. -/
def isAppUpdate : Event → Bool
  | Event.appUpdated _ => true
  | _ => false

/-- Number of Application-update writes in a trace (cascade executions). -/
def applicationUpdates (tr : List Event) : Nat :=
  (tr.filter isAppUpdate).length

/-- `Payment.findOne({ reference })`. -/
def findPaymentByReference (db : DB) (ref : String) : Option Payment :=
  db.payments.find? (fun p => p.reference == ref)

/-- `Application.findById(aid)`. -/
def findApplicationById (db : DB) (aid : Nat) : Option Application :=
  db.applications.find? (fun a => a.id == aid)

/-- `User.findOne({ email })`. -/
def findUserByEmail (db : DB) (email : String) : Option User :=
  db.users.find? (fun u => u.email == email)

/-- `Payment.findOne({ application: applicationId, status: 'pending' })`. -/
def findPendingPaymentByApplication (db : DB) (aid : Nat) : Option Payment :=
  db.payments.find? (fun p => p.application == aid && p.status == PStatus.pending)

/-- `payment.save()`: persist the (mutated) document, replacing the stored
document with the same `_id`. -/
def savePayment (db : DB) (p : Payment) : DB :=
  { db with payments := db.payments.map (fun q => if q.id == p.id then p else q) }

/-- `Payment.findByIdAndDelete(pid)`. -/
def deletePaymentById (db : DB) (pid : Nat) : DB :=
  { db with payments := db.payments.filter (fun q => !(q.id == pid)) }

/-- `application.save()`. -/
def saveApplication (db : DB) (a : Application) : DB :=
  { db with applications := db.applications.map (fun b => if b.id == a.id then a else b) }

/-- `Application.findByIdAndUpdate(aid, { status: 'enrolled', paymentStatus: 'paid' })`. -/
def applicationEnroll (db : DB) (aid : Nat) : DB :=
  { db with applications := db.applications.map (fun a =>
      if a.id == aid then
        { a with status := AppStatus.enrolled, paymentStatus := AppPayStatus.paid }
      else a) }

/-- `Application.findByIdAndUpdate(aid, { paymentStatus: 'failed' })`. -/
def applicationPayFailed (db : DB) (aid : Nat) : DB :=
  { db with applications := db.applications.map (fun a =>
      if a.id == aid then { a with paymentStatus := AppPayStatus.failed } else a) }

/-- `User.findByIdAndUpdate(uid, { $addToSet: { enrolledPrograms: aid } })`:
MongoDB `$addToSet` semantics, appending only when the value is absent. -/
def userAddEnrolledProgram (db : DB) (uid aid : Nat) : DB :=
  { db with users := db.users.map (fun u =>
      if u.id == uid then
        { u with enrolledPrograms :=
            if aid ∈ u.enrolledPrograms then u.enrolledPrograms
            else u.enrolledPrograms ++ [aid] }
      else u) }

/-- Outcome of `paymentService.initializePayment` (the Paystack
`transaction.initialize` call), supplied as an oracle: either
`{ success: false, error }` or `{ success: true, data: { authorization_url,
reference, access_code } }`. -/
inductive GwInitResult
  | err (msg : String)
  | ok (authorizationUrl : String) (reference : String) (accessCode : String)
deriving DecidableEq

/-- Outcome of `paymentService.verifyPayment` (the Paystack
`transaction.verify` call), supplied as an oracle. -/
inductive GwVerifyResult
  | err (msg : String)
  | ok (data : VerifyData)
deriving DecidableEq

/-- The part of an HTTP response the specification talks about: status code,
the `success` flag, the checkout-session reference carried in the body (when
one is), and the payment record echoed in the body (when one is). -/
structure HttpResponse where
  status : Nat
  success : Bool
  dataReference : Option String
  payment : Option Payment
deriving DecidableEq

/-- Request body of `POST /initialize`: `{ applicationId, program, track,
amount, email, metadata }`. -/
structure InitRequest where
  applicationId : Nat
  program : String
  track : String
  amount : Int
  email : String
  metadata : List (String × String)
deriving DecidableEq

/-- Object spread `{ ...metadata, applicationId: applicationId.toString() }`:
the later key overrides any identically named key of the bag. -/
def metaWithApplicationId (m : List (String × String)) (aid : Nat) :
    List (String × String) :=
  m.filter (fun kv => !(kv.fst == "applicationId")) ++ [("applicationId", toString aid)]

namespace PaymentService

/-- `paymentService.verifyWebhookSignature(payload, signature)`:
when `PAYSTACK_WEBHOOK_SECRET` is not set the function returns `true`
immediately (verification is skipped); otherwise it compares the
HMAC-SHA512 of `JSON.stringify(payload)` under the secret with the provided
signature.  The HMAC itself is external crypto and is passed in as a
function. -/
def verifyWebhookSignature (hmacSha512 : String → String → String)
    (webhookSecret : Option String) (payloadBytes signature : String) : Bool :=
  match webhookSecret with
  | none => true
  | some secret => hmacSha512 secret payloadBytes == signature

end PaymentService

/-- The record update performed by `verifyPayment` at part_000 lines 199-204:
`status` from the gateway outcome, `paidAt` from `paid_at`
(assigned unconditionally, also on a failed outcome), `verified = true`,
and `metadata.paystackData` set to the gateway data. -/
def verifySettled (p : Payment) (v : VerifyData) : Payment :=
  { p with
      status := if v.status == "success" then PStatus.success else PStatus.failed
      paidAt := some v.paid_at
      verified := true
      metadata := { p.metadata with paystackData := some v } }

/-- The record update performed by `processSuccessfulCharge` at part_000
lines 404-409: `status = 'success'`, `paidAt` from `data.paid_at`,
`verified = true`, `metadata.paystackWebhookData = data`. -/
def webhookSettled (p : Payment) (d : ChargeData) : Payment :=
  { p with
      status := PStatus.success
      paidAt := some d.paid_at
      verified := true
      metadata := { p.metadata with paystackWebhookData := some d } }

namespace PaymentController

/-- Fault injection for the two cascade steps of `processSuccessfulCharge`
(`Application.findByIdAndUpdate` and `User.findByIdAndUpdate`): `true` means
the awaited database call rejects (throws). -/
structure Faults where
  appUpdateFails : Bool
  userUpdateFails : Bool
deriving DecidableEq

/-- No injected faults: every database call succeeds. -/
def noFaults : Faults := { appUpdateFails := false, userUpdateFails := false }

/-- `PaymentController.processSuccessfulCharge(data)` (part_000 382-430).
Returns the database after the writes that completed, the trace of writes
issued, and whether the method threw (its `catch` block logs and
re-`throw`s, so an injected fault propagates to the caller after the
earlier writes have already been persisted).  There is no `verified`
idempotency check on this path: the payment found by `reference` is
unconditionally settled as `success` and the cascade is executed. -/
def processSuccessfulCharge (db : DB) (data : ChargeData) (faults : Faults) :
    DB × List Event × Bool :=
  match findPaymentByReference db data.reference with
  | none => (db, [], false)
  | some payment =>
    let payment1 := webhookSettled payment data
    let db1 := savePayment db payment1
    if faults.appUpdateFails then
      (db1, [Event.paymentSaved payment.id], true)
    else
      let db2 := applicationEnroll db1 payment.application
      if faults.userUpdateFails then
        (db2, [Event.paymentSaved payment.id, Event.appUpdated payment.application], true)
      else
        let db3 := userAddEnrolledProgram db2 payment.user payment.application
        (db3,
          [Event.paymentSaved payment.id, Event.appUpdated payment.application,
           Event.userUpdated payment.user],
          false)

/-- `PaymentController.verifyPayment(req, res)` (part_000 151-246), with the
gateway verification outcome supplied as an oracle.  The idempotency
short-circuit at lines 177-184 returns the existing record with a 200 when
`payment.verified` is already true, before any gateway call or write. -/
def verifyPayment (db : DB) (reference : Option String) (gw : GwVerifyResult) :
    HttpResponse × DB × List Event :=
  match reference with
  | none =>
    ({ status := 400, success := false, dataReference := none, payment := none }, db, [])
  | some ref =>
    match findPaymentByReference db ref with
    | none =>
      ({ status := 404, success := false, dataReference := none, payment := none }, db, [])
    | some payment =>
      if payment.verified then
        ({ status := 200, success := true, dataReference := none, payment := some payment },
          db, [])
      else
        match gw with
        | GwVerifyResult.err _ =>
          ({ status := 400, success := false, dataReference := none, payment := none }, db, [])
        | GwVerifyResult.ok verificationData =>
          let payment1 := verifySettled payment verificationData
          let db1 := savePayment db payment1
          if payment1.status = PStatus.success then
            let db2 := applicationEnroll db1 payment.application
            let db3 := userAddEnrolledProgram db2 payment.user payment.application
            ({ status := 200, success := true, dataReference := none,
               payment := some payment1 },
              db3,
              [Event.paymentSaved payment.id, Event.appUpdated payment.application,
               Event.userUpdated payment.user])
          else
            let db2 := applicationPayFailed db1 payment.application
            ({ status := 400, success := false, dataReference := none,
               payment := some payment1 },
              db2,
              [Event.paymentSaved payment.id, Event.appUpdated payment.application])

/-- Tail of `PaymentController.initializePayment` from the `User.findOne`
lookup onward (part_000 66-136): create the pending Payment with the locally
generated placeholder reference, link it to the Application, call the
gateway; on gateway failure delete the Payment and null the Application's
link before returning 500; on success overwrite the reference with the
gateway-issued one. -/
def initializePaymentCreate (db : DB) (application : Application) (req : InitRequest)
    (now : Int) (freshId : Nat) (freshRef : String) (gw : GwInitResult)
    (tr : List Event) : HttpResponse × DB × List Event :=
  match findUserByEmail db req.email with
  | none =>
    ({ status := 404, success := false, dataReference := none, payment := none }, db, tr)
  | some findUser =>
    let payment : Payment :=
      { id := freshId
        user := findUser.id
        application := req.applicationId
        track := req.track
        program := req.program
        amount := req.amount * 100
        currency := "NGN"
        reference := freshRef
        status := PStatus.pending
        metadata :=
          { base := metaWithApplicationId req.metadata req.applicationId
            paystackData := none
            paystackWebhookData := none }
        paidAt := none
        verified := false
        expiresAt := now + 86400000 }
    let db1 : DB := { db with payments := db.payments ++ [payment] }
    let db2 := saveApplication db1 { application with payment := some freshId }
    match gw with
    | GwInitResult.err _ =>
      let db3 := deletePaymentById db2 freshId
      let db4 := saveApplication db3 { application with payment := none }
      ({ status := 500, success := false, dataReference := none, payment := none },
        db4,
        tr ++ [Event.paymentCreated freshId, Event.appUpdated application.id,
               Event.paymentDeleted freshId, Event.appUpdated application.id])
    | GwInitResult.ok _ gwRef _ =>
      let db3 := savePayment db2 { payment with reference := gwRef }
      ({ status := 200, success := true, dataReference := some gwRef, payment := none },
        db3,
        tr ++ [Event.paymentCreated freshId, Event.appUpdated application.id,
               Event.paymentSaved freshId])

/-- `PaymentController.initializePayment(req, res)` (part_000 10-146), with
`now`, the freshly generated document id, the locally generated placeholder
reference, and the gateway outcome supplied as parameters.  When a pending
Payment for the Application exists and is not expired, the existing Payment
is reused: a new checkout session is requested and its data returned, with
no database write at all (in particular the existing Payment's reference is
not updated with the session's fresh gateway reference). -/
def initializePayment (db : DB) (req : InitRequest) (now : Int)
    (freshId : Nat) (freshRef : String) (gw : GwInitResult) :
    HttpResponse × DB × List Event :=
  match findApplicationById db req.applicationId with
  | none =>
    ({ status := 404, success := false, dataReference := none, payment := none }, db, [])
  | some application =>
    match findPendingPaymentByApplication db req.applicationId with
    | some existingPayment =>
      if existingPayment.expiresAt < now then
        let db0 := savePayment db { existingPayment with status := PStatus.expired }
        initializePaymentCreate db0 application req now freshId freshRef gw
          [Event.paymentSaved existingPayment.id]
      else
        match gw with
        | GwInitResult.err _ =>
          ({ status := 500, success := false, dataReference := none, payment := none },
            db, [])
        | GwInitResult.ok _ gwRef _ =>
          ({ status := 200, success := true, dataReference := some gwRef, payment := none },
            db, [])
    | none => initializePaymentCreate db application req now freshId freshRef gw []

/-- `PaymentController.handleWebhook(req, res)` (part_000 335-377) together
with its route registration `router.post('/webhook',
paymentController.handleWebhook)` (part_000 paymentRoutes).  The method is
registered as a bare (unbound) function reference, so when Express invokes
it `this` is `undefined` (class bodies are strict mode); `selfBound` records
whether a receiver is bound — in the deployed wiring it is `false`.
Dispatch:
* `charge.success` calls `this.processSuccessfulCharge(data)`: with no
  receiver the property access throws a TypeError, caught by the `catch`
  block, which answers 500 with no state change;
* `transfer.success` and `invoice.payment_failed` call
  `this.processSuccessfulTransfer` / `this.processFailedPayment`, methods
  that are not defined anywhere on the class, so the call throws whether or
  not a receiver is bound, and the response is 500;
* any other event is logged and ignored, and the response is 200. -/
def handleWebhook (hmacSha512 : String → String → String)
    (webhookSecret : Option String) (selfBound : Bool)
    (event : String) (data : ChargeData) (rawBody signature : String)
    (faults : Faults) (db : DB) : HttpResponse × DB × List Event :=
  if !(PaymentService.verifyWebhookSignature hmacSha512 webhookSecret rawBody signature) then
    ({ status := 401, success := false, dataReference := none, payment := none }, db, [])
  else if event == "charge.success" then
    if !selfBound then
      ({ status := 500, success := false, dataReference := none, payment := none }, db, [])
    else
      let r := processSuccessfulCharge db data faults
      if r.2.2 then
        ({ status := 500, success := false, dataReference := none, payment := none },
          r.1, r.2.1)
      else
        ({ status := 200, success := true, dataReference := none, payment := none },
          r.1, r.2.1)
  else if event == "transfer.success" || event == "invoice.payment_failed" then
    ({ status := 500, success := false, dataReference := none, payment := none }, db, [])
  else
    ({ status := 200, success := true, dataReference := none, payment := none }, db, [])

end PaymentController

/-! ### Concrete sample states used by counterexamples and witnesses -/

/-- A pending, unverified payment awaiting reconciliation. -/
def samplePayment : Payment :=
  { id := 1
    user := 10
    application := 20
    track := "frontend-development"
    program := "launchpad"
    amount := 50000000
    currency := "NGN"
    reference := "PAY-1"
    status := PStatus.pending
    metadata := { base := [], paystackData := none, paystackWebhookData := none }
    paidAt := none
    verified := false
    expiresAt := 1000 }

/-- The application owning `samplePayment`, still pending. -/
def sampleApplication : Application :=
  { id := 20
    email := "student@example.com"
    status := AppStatus.pending
    paymentStatus := AppPayStatus.pending
    payment := some 1
    program := "launchpad"
    track := "frontend-development" }

/-- The user owning `samplePayment`, with no enrolled programs yet. -/
def sampleUser : User :=
  { id := 10, email := "student@example.com", enrolledPrograms := [] }

/-- Database holding the sample payment, application and user. -/
def sampleDB : DB :=
  { payments := [samplePayment]
    applications := [sampleApplication]
    users := [sampleUser] }

/-- A `charge.success` webhook data object for the sample payment. -/
def sampleCharge : ChargeData := { reference := "PAY-1", paid_at := 500 }

/-- Database with the sample application and user but no payment yet, for
exercising the create path of `initializePayment`. -/
def emptyPaymentsDB : DB :=
  { payments := [], applications := [sampleApplication], users := [sampleUser] }

/-- A concrete `POST /initialize` request body for the sample application. -/
def sampleInitRequest : InitRequest :=
  { applicationId := 20
    program := "launchpad"
    track := "frontend-development"
    amount := 500000
    email := "student@example.com"
    metadata := [] }

/-- Database after the sample payment was settled once through the webhook
path: the payment is now `success` and `verified`. -/
def sampleSettledDB : DB :=
  (PaymentController.processSuccessfulCharge sampleDB sampleCharge
    PaymentController.noFaults).1

/-! ### Generic lemmas about `List.find?` after a `map`-style update

`savePayment`, `saveApplication`, `applicationEnroll`, `applicationPayFailed`
all update a collection by mapping over it; these lemmas locate the updated
document afterwards. -/

/-- If `find?` locates `a` and the update `g` either fixes an element or
replaces it by `g a` (the shape of a replace-by-id map when `g a` itself
satisfies the predicate), then `find?` on the mapped list locates `g a`. -/
theorem find?_map_of_choice {α : Type} (pred : α → Bool) (g : α → α)
    (l : List α) (a : α)
    (hf : l.find? pred = some a)
    (hga : pred (g a) = true)
    (hcase : ∀ x, g x = x ∨ g x = g a) :
    (l.map g).find? pred = some (g a) := by
  induction l with
  | nil => simp [List.find?] at hf
  | cons b t ih =>
    rw [List.map_cons]
    cases hb : pred b with
    | true =>
      rw [List.find?_cons_of_pos t hb] at hf
      have hab : b = a := by injection hf
      subst hab
      exact List.find?_cons_of_pos _ hga
    | false =>
      rw [List.find?_cons_of_neg t (by simp [hb])] at hf
      rcases hcase b with hgb | hgb
      · rw [hgb]
        rw [List.find?_cons_of_neg _ (by simp [hb])]
        exact ih hf
      · rw [hgb]
        exact List.find?_cons_of_pos _ hga

/-- If `find?` locates `a` and the update `g` fixes every element the
predicate rejects, then `find?` on the mapped list locates `g a`. -/
theorem find?_map_of_frame {α : Type} (pred : α → Bool) (g : α → α)
    (l : List α) (a : α)
    (hf : l.find? pred = some a)
    (hga : pred (g a) = true)
    (hskip : ∀ x, pred x = false → g x = x) :
    (l.map g).find? pred = some (g a) := by
  induction l with
  | nil => simp [List.find?] at hf
  | cons b t ih =>
    rw [List.map_cons]
    cases hb : pred b with
    | true =>
      rw [List.find?_cons_of_pos t hb] at hf
      have hab : b = a := by injection hf
      subst hab
      exact List.find?_cons_of_pos _ hga
    | false =>
      rw [List.find?_cons_of_neg t (by simp [hb])] at hf
      rw [hskip b hb]
      rw [List.find?_cons_of_neg _ (by simp [hb])]
      exact ih hf

/-! ### Small frame facts about the collection updates -/

/-- `User.findByIdAndUpdate` does not touch the payments collection. -/
theorem payments_userAdd (db : DB) (u a : Nat) :
    (userAddEnrolledProgram db u a).payments = db.payments := rfl

/-- The enrolled-cascade Application update does not touch the payments. -/
theorem payments_applicationEnroll (db : DB) (a : Nat) :
    (applicationEnroll db a).payments = db.payments := rfl

/-- The failed-cascade Application update does not touch the payments. -/
theorem payments_applicationPayFailed (db : DB) (a : Nat) :
    (applicationPayFailed db a).payments = db.payments := rfl

/-- `payment.save()` does not touch the applications collection. -/
theorem applications_savePayment (db : DB) (p : Payment) :
    (savePayment db p).applications = db.applications := rfl

/-- `payment.save()` does not touch the users collection. -/
theorem users_savePayment (db : DB) (p : Payment) :
    (savePayment db p).users = db.users := rfl

/-- The failed-cascade Application update does not touch the users. -/
theorem users_applicationPayFailed (db : DB) (a : Nat) :
    (applicationPayFailed db a).users = db.users := rfl

/-- `application.save()` does not touch the payments collection. -/
theorem payments_saveApplication (db : DB) (a : Application) :
    (saveApplication db a).payments = db.payments := rfl

/-- `Payment.findByIdAndDelete` keeps exactly the payments with another id. -/
theorem payments_deletePayment (db : DB) (pid : Nat) :
    (deletePaymentById db pid).payments = db.payments.filter (fun q => !(q.id == pid)) := rfl

/-- `Payment.findByIdAndDelete` does not touch the applications collection. -/
theorem applications_deletePayment (db : DB) (pid : Nat) :
    (deletePaymentById db pid).applications = db.applications := rfl

/-- The settled record of the verify path keeps the document id. -/
theorem verifySettled_id (p : Payment) (v : VerifyData) :
    (verifySettled p v).id = p.id := rfl

/-- The settled record of the verify path keeps the reference. -/
theorem verifySettled_reference (p : Payment) (v : VerifyData) :
    (verifySettled p v).reference = p.reference := rfl

/-- The settled record of the verify path carries the computed status. -/
theorem verifySettled_status (p : Payment) (v : VerifyData) :
    (verifySettled p v).status =
      if v.status == "success" then PStatus.success else PStatus.failed := rfl

/-- The settled record of the verify path has `paidAt` assigned, whatever the
outcome was. -/
theorem verifySettled_paidAt (p : Payment) (v : VerifyData) :
    (verifySettled p v).paidAt = some v.paid_at := rfl

/-- The settled record of the webhook path keeps the document id. -/
theorem webhookSettled_id (p : Payment) (d : ChargeData) :
    (webhookSettled p d).id = p.id := rfl

/-- The settled record of the webhook path keeps the reference. -/
theorem webhookSettled_reference (p : Payment) (d : ChargeData) :
    (webhookSettled p d).reference = p.reference := rfl

/-- The settled record of the webhook path always has status `success`. -/
theorem webhookSettled_status (p : Payment) (d : ChargeData) :
    (webhookSettled p d).status = PStatus.success := rfl

/-- The settled record of the webhook path is always marked verified. -/
theorem webhookSettled_verified (p : Payment) (d : ChargeData) :
    (webhookSettled p d).verified = true := rfl

/-- Looking a payment up by reference only depends on the payments list. -/
theorem findPaymentByReference_congr {db db' : DB} (h : db'.payments = db.payments)
    (ref : String) : findPaymentByReference db' ref = findPaymentByReference db ref := by
  simp [findPaymentByReference, h]

/-- Looking an application up by id only depends on the applications list. -/
theorem findApplicationById_congr {db db' : DB} (h : db'.applications = db.applications)
    (aid : Nat) : findApplicationById db' aid = findApplicationById db aid := by
  simp [findApplicationById, h]

/-- After `savePayment db p1`, looking up the saved payment's reference finds
the saved document, provided `p1` keeps the id and reference of the document
`p` the lookup previously found. -/
theorem find?_savePayment (db : DB) (ref : String) (p p1 : Payment)
    (hp : findPaymentByReference db ref = some p)
    (hid : p1.id = p.id) (href : p1.reference = p.reference) :
    findPaymentByReference (savePayment db p1) ref = some p1 := by
  have hpr : (p.reference == ref) = true := by simpa using List.find?_some hp
  have hgp : (fun q : Payment => if q.id == p1.id then p1 else q) p = p1 := by
    simp [hid]
  have h := find?_map_of_choice (fun q : Payment => q.reference == ref)
      (fun q => if q.id == p1.id then p1 else q) db.payments p hp
      (by rw [hgp]; simpa [href] using hpr)
      (by
        intro x
        by_cases hx : (x.id == p1.id) = true
        · right; rw [hgp]; simp [hx]
        · left; simp [hx])
  rw [hgp] at h
  simpa [findPaymentByReference, savePayment] using h

/-- After `application.save()` of a document `app'` with the same id, the
lookup by that id finds `app'`. -/
theorem find?_saveApplication (db : DB) (aid : Nat) (app app' : Application)
    (ha : findApplicationById db aid = some app)
    (hid : app'.id = app.id) :
    findApplicationById (saveApplication db app') aid = some app' := by
  have hai : (app.id == aid) = true := by simpa using List.find?_some ha
  have hgp : (fun b : Application => if b.id == app'.id then app' else b) app = app' := by
    simp [hid]
  have h := find?_map_of_choice (fun b : Application => b.id == aid)
      (fun b => if b.id == app'.id then app' else b) db.applications app ha
      (by rw [hgp]; simpa [hid] using hai)
      (by
        intro x
        by_cases hx : (x.id == app'.id) = true
        · right; rw [hgp]; simp [hx]
        · left; simp [hx])
  rw [hgp] at h
  simpa [findApplicationById, saveApplication] using h

/-- After the failed-cascade update on application `aid`, the lookup finds the
previous document with only `paymentStatus` changed to `failed`. -/
theorem find?_applicationPayFailed (db : DB) (aid : Nat) (app : Application)
    (ha : findApplicationById db aid = some app) :
    findApplicationById (applicationPayFailed db aid) aid =
      some { app with paymentStatus := AppPayStatus.failed } := by
  have hai : (app.id == aid) = true := by simpa using List.find?_some ha
  have hgp : (fun a : Application =>
      if a.id == aid then { a with paymentStatus := AppPayStatus.failed } else a) app =
      { app with paymentStatus := AppPayStatus.failed } := by
    simp [hai]
  have h := find?_map_of_frame (fun a : Application => a.id == aid)
      (fun a => if a.id == aid then { a with paymentStatus := AppPayStatus.failed } else a)
      db.applications app ha
      (by rw [hgp]; simpa using hai)
      (by intro x hx; simp [hx])
  rw [hgp] at h
  simpa [findApplicationById, applicationPayFailed] using h

/-! ### Shared facts about a fault-free `processSuccessfulCharge` run -/

/-- With no injected faults, webhook charge processing on a found payment
issues exactly the payment save, one Application update and one User
update. -/
theorem trace_processSuccessfulCharge (db : DB) (d : ChargeData) (p : Payment)
    (hp : findPaymentByReference db d.reference = some p) :
    (PaymentController.processSuccessfulCharge db d PaymentController.noFaults).2.1 =
      [Event.paymentSaved p.id, Event.appUpdated p.application,
       Event.userUpdated p.user] := by
  simp [PaymentController.processSuccessfulCharge, hp, PaymentController.noFaults]

/-- With no injected faults, webhook charge processing on a found payment
produces the state: payment saved as `webhookSettled`, application enrolled,
user enrolled-set inserted. -/
theorem state_processSuccessfulCharge (db : DB) (d : ChargeData) (p : Payment)
    (hp : findPaymentByReference db d.reference = some p) :
    (PaymentController.processSuccessfulCharge db d PaymentController.noFaults).1 =
      userAddEnrolledProgram
        (applicationEnroll (savePayment db (webhookSettled p d)) p.application)
        p.user p.application := by
  simp [PaymentController.processSuccessfulCharge, hp, PaymentController.noFaults]

/-- After webhook charge processing, the lookup by reference finds the
settled record: `status = success`, `verified = true`, whatever the prior
status was. -/
theorem find?_processSuccessfulCharge (db : DB) (d : ChargeData) (p : Payment)
    (hp : findPaymentByReference db d.reference = some p) :
    findPaymentByReference
        (PaymentController.processSuccessfulCharge db d PaymentController.noFaults).1
        d.reference = some (webhookSettled p d) := by
  rw [state_processSuccessfulCharge db d p hp]
  rw [findPaymentByReference_congr (payments_userAdd _ _ _)]
  rw [findPaymentByReference_congr (payments_applicationEnroll _ _)]
  exact find?_savePayment db d.reference p (webhookSettled p d) hp
    (webhookSettled_id p d) (webhookSettled_reference p d)

/-! ### Claims -/

/-- C10: verify is atomic on gateway error.  For every Payment with
`verified == false`, if the gateway verification call fails, the verify
endpoint returns an error response (400) and the database is returned
unchanged: the stored Payment keeps its status, `verified` and `paidAt`, and
no Application or User write is issued (the trace is empty). -/
theorem C10_verify_unchanged_on_gateway_error (db : DB) (ref : String) (p : Payment)
    (msg : String)
    (hp : findPaymentByReference db ref = some p)
    (hv : p.verified = false) :
    PaymentController.verifyPayment db (some ref) (GwVerifyResult.err msg) =
      ({ status := 400, success := false, dataReference := none, payment := none },
        db, []) := by
  simp [PaymentController.verifyPayment, hp, hv]

/-- C10 witness: on the sample state (pending, unverified payment `PAY-1`),
a failing gateway call leaves the database untouched and answers 400. -/
theorem C10_witness :
    findPaymentByReference sampleDB "PAY-1" = some samplePayment ∧
    samplePayment.verified = false ∧
    PaymentController.verifyPayment sampleDB (some "PAY-1") (GwVerifyResult.err "timeout") =
      ({ status := 400, success := false, dataReference := none, payment := none },
        sampleDB, []) :=
  ⟨by decide, by decide,
    C10_verify_unchanged_on_gateway_error sampleDB "PAY-1" samplePayment "timeout"
      (by decide) (by decide)⟩

/-- C9: failure cascade frame.  A reconciliation that settles a Payment as
failed (the verify path with a non-success gateway outcome — the webhook
path has no reachable failure handler) answers 400, and updates the linked
Application to exactly `{ app with paymentStatus := failed }`: every other
Application field, `status` included, keeps its prior value, so `status`
never becomes `enrolled` on a failed outcome; the users collection is not
touched at all. -/
theorem C9_failure_cascade_frame (db : DB) (ref : String) (p : Payment)
    (v : VerifyData) (app : Application)
    (hp : findPaymentByReference db ref = some p)
    (hv : p.verified = false)
    (hs : v.status ≠ "success")
    (ha : findApplicationById db p.application = some app) :
    (PaymentController.verifyPayment db (some ref) (GwVerifyResult.ok v)).1.status = 400 ∧
    findApplicationById
        (PaymentController.verifyPayment db (some ref) (GwVerifyResult.ok v)).2.1
        p.application = some { app with paymentStatus := AppPayStatus.failed } ∧
    (PaymentController.verifyPayment db (some ref) (GwVerifyResult.ok v)).2.1.users =
      db.users := by
  have hsb : (v.status == "success") = false := beq_eq_false_iff_ne.mpr hs
  have ha' : findApplicationById (savePayment db (verifySettled p v)) p.application =
      some app := by
    rw [findApplicationById_congr (applications_savePayment db _)]
    exact ha
  have hfin := find?_applicationPayFailed (savePayment db (verifySettled p v))
    p.application app ha'
  simp only [PaymentController.verifyPayment, hp, hv, Bool.false_eq_true, if_false,
    verifySettled_status, hsb]
  refine ⟨rfl, hfin, ?_⟩
  show (applicationPayFailed (savePayment db (verifySettled p v)) p.application).users =
    db.users
  rw [users_applicationPayFailed, users_savePayment]

/-- C9 witness: settling the sample pending payment with a gateway outcome
`abandoned` marks the sample application's `paymentStatus` failed and leaves
all its other fields (status `pending` included) and the users untouched. -/
theorem C9_witness :
    samplePayment.verified = false ∧
    (PaymentController.verifyPayment sampleDB (some "PAY-1")
        (GwVerifyResult.ok { status := "abandoned", paid_at := 7 })).1.status = 400 ∧
    findApplicationById
        (PaymentController.verifyPayment sampleDB (some "PAY-1")
          (GwVerifyResult.ok { status := "abandoned", paid_at := 7 })).2.1 20 =
      some { sampleApplication with paymentStatus := AppPayStatus.failed } ∧
    (PaymentController.verifyPayment sampleDB (some "PAY-1")
        (GwVerifyResult.ok { status := "abandoned", paid_at := 7 })).2.1.users =
      sampleDB.users := by
  have h := C9_failure_cascade_frame sampleDB "PAY-1" samplePayment
    { status := "abandoned", paid_at := 7 } sampleApplication
    (by decide) (by decide) (by decide) (by decide)
  exact ⟨by decide, h.1, h.2.1, h.2.2⟩

/-- C6: initialize is atomic on gateway failure.  When no pending Payment
exists for the Application (the create path), the Application and the user
are found, the fresh document id is indeed fresh, and the gateway
checkout-session call fails, the request answers 500, the payments
collection afterwards equals the one before the request (the newly created
row was compensating-deleted), and the Application's payment link is unset
with all its other fields intact. -/
theorem C6_initialize_rollback (db : DB) (req : InitRequest) (app : Application)
    (u : User) (now : Int) (freshId : Nat) (freshRef : String) (msg : String)
    (hApp : findApplicationById db req.applicationId = some app)
    (hNoPending : findPendingPaymentByApplication db req.applicationId = none)
    (hUser : findUserByEmail db req.email = some u)
    (hFresh : ∀ p ∈ db.payments, p.id ≠ freshId) :
    (PaymentController.initializePayment db req now freshId freshRef
        (GwInitResult.err msg)).1.status = 500 ∧
    (PaymentController.initializePayment db req now freshId freshRef
        (GwInitResult.err msg)).2.1.payments = db.payments ∧
    findApplicationById
        (PaymentController.initializePayment db req now freshId freshRef
          (GwInitResult.err msg)).2.1 req.applicationId =
      some { app with payment := none } := by
  simp only [PaymentController.initializePayment, hApp, hNoPending,
    PaymentController.initializePaymentCreate, hUser]
  refine ⟨?_, ?_, ?_⟩
  · first
    | rfl
    | trivial
  · rw [payments_saveApplication, payments_deletePayment, payments_saveApplication]
    show (db.payments ++ [_]).filter _ = db.payments
    rw [List.filter_append]
    have h1 : db.payments.filter (fun q => !(q.id == freshId)) = db.payments :=
      List.filter_eq_self.mpr (fun q hq => by simp [hFresh q hq])
    rw [h1]
    simp
  · refine find?_saveApplication _ req.applicationId { app with payment := some freshId }
      { app with payment := none } ?_ rfl
    rw [findApplicationById_congr (applications_deletePayment _ _)]
    refine find?_saveApplication _ req.applicationId app
      { app with payment := some freshId } ?_ rfl
    exact hApp

/-- C6 witness: on a database with the sample application and user and no
payments, a failing checkout-session call answers 500, leaves the payments
collection empty, and nulls the application's payment link. -/
theorem C6_witness :
    (PaymentController.initializePayment emptyPaymentsDB sampleInitRequest 0 7
        "PAY-LOCAL" (GwInitResult.err "down")).1.status = 500 ∧
    (PaymentController.initializePayment emptyPaymentsDB sampleInitRequest 0 7
        "PAY-LOCAL" (GwInitResult.err "down")).2.1.payments = emptyPaymentsDB.payments ∧
    findApplicationById
        (PaymentController.initializePayment emptyPaymentsDB sampleInitRequest 0 7
          "PAY-LOCAL" (GwInitResult.err "down")).2.1 sampleInitRequest.applicationId =
      some { sampleApplication with payment := none } :=
  C6_initialize_rollback emptyPaymentsDB sampleInitRequest sampleApplication sampleUser
    0 7 "PAY-LOCAL" "down" (by decide) (by decide) (by decide) (by decide)

/-- C1 counterexample: delivering the same success outcome twice through the
webhook handler does not produce exactly one Application/User cascade — the
webhook path has no `verified` short-circuit, so the second delivery
re-executes the cascade: across the two deliveries of `sampleCharge` two
Application-update writes are issued, not one. -/
theorem C1_counterexample :
    applicationUpdates
        ((PaymentController.processSuccessfulCharge sampleDB sampleCharge
            PaymentController.noFaults).2.1) +
      applicationUpdates
        ((PaymentController.processSuccessfulCharge
            (PaymentController.processSuccessfulCharge sampleDB sampleCharge
                PaymentController.noFaults).1 sampleCharge
            PaymentController.noFaults).2.1) = 2 := by decide

/-- C1 amended: reconciliation is idempotent only through the verify
endpoint: when `payment.verified` is already true, a verify call returns the
existing record unchanged with a 200 and performs no write and no cascade.
The webhook processing routine has no such short-circuit: a duplicate
delivery executes the Application/User cascade again (one more
Application-update write), although re-applying the same outcome to the
already-settled sample state leaves the stored state itself unchanged. -/
theorem C1_amended_idempotency :
    (∀ (db : DB) (ref : String) (p : Payment) (gw : GwVerifyResult),
        findPaymentByReference db ref = some p → p.verified = true →
        PaymentController.verifyPayment db (some ref) gw =
          ({ status := 200, success := true, dataReference := none, payment := some p },
            db, [])) ∧
    ((PaymentController.processSuccessfulCharge
        (PaymentController.processSuccessfulCharge sampleDB sampleCharge
            PaymentController.noFaults).1 sampleCharge PaymentController.noFaults).1 =
      (PaymentController.processSuccessfulCharge sampleDB sampleCharge
          PaymentController.noFaults).1 ∧
      applicationUpdates
        ((PaymentController.processSuccessfulCharge
            (PaymentController.processSuccessfulCharge sampleDB sampleCharge
                PaymentController.noFaults).1 sampleCharge
            PaymentController.noFaults).2.1) = 1) := by
  refine ⟨?_, by decide⟩
  intro db ref p gw hp hv
  simp [PaymentController.verifyPayment, hp, hv]

/-- C1 witness: on the settled sample state the verify endpoint
short-circuits — it returns the settled record, status 200, database and
trace untouched, with the gateway never consulted (here: a failing
gateway oracle that is not reached). -/
theorem C1_witness :
    findPaymentByReference sampleSettledDB "PAY-1" =
      some (webhookSettled samplePayment sampleCharge) ∧
    (webhookSettled samplePayment sampleCharge).verified = true ∧
    PaymentController.verifyPayment sampleSettledDB (some "PAY-1")
        (GwVerifyResult.err "dup") =
      ({ status := 200, success := true, dataReference := none,
         payment := some (webhookSettled samplePayment sampleCharge) },
        sampleSettledDB, []) :=
  ⟨by decide, by decide,
    C1_amended_idempotency.1 sampleSettledDB "PAY-1"
      (webhookSettled samplePayment sampleCharge) (GwVerifyResult.err "dup")
      (by decide) (by decide)⟩

/-- C2 counterexample: payment status is not monotonic.  Settling the sample
payment through the verify endpoint with a non-success outcome puts it in
the terminal state `failed`; a subsequent `charge.success` webhook delivery
overwrites that terminal status with `success`. -/
theorem C2_counterexample :
    ((findPaymentByReference
        (PaymentController.verifyPayment sampleDB (some "PAY-1")
            (GwVerifyResult.ok { status := "failed", paid_at := 7 })).2.1
        "PAY-1").map Payment.status = some PStatus.failed) ∧
    ((findPaymentByReference
        (PaymentController.processSuccessfulCharge
            (PaymentController.verifyPayment sampleDB (some "PAY-1")
                (GwVerifyResult.ok { status := "failed", paid_at := 7 })).2.1
            sampleCharge PaymentController.noFaults).1
        "PAY-1").map Payment.status = some PStatus.success) := by decide

/-- C2 amended: status is preserved only against the verify endpoint and
only for already-verified payments (the short-circuit leaves the database
untouched); the webhook `charge.success` routine overwrites the found
payment — whatever its current status, terminal or not — with the settled
record whose status is `success`. -/
theorem C2_amended_status_overwritten :
    (∀ (db : DB) (ref : String) (p : Payment) (gw : GwVerifyResult),
        findPaymentByReference db ref = some p → p.verified = true →
        (PaymentController.verifyPayment db (some ref) gw).2.1 = db) ∧
    (∀ (db : DB) (d : ChargeData) (p : Payment),
        findPaymentByReference db d.reference = some p →
        findPaymentByReference
            (PaymentController.processSuccessfulCharge db d
              PaymentController.noFaults).1 d.reference =
          some (webhookSettled p d)) := by
  constructor
  · intro db ref p gw hp hv
    simp [PaymentController.verifyPayment, hp, hv]
  · intro db d p hp
    exact find?_processSuccessfulCharge db d p hp

/-- C2 witness: the settled sample state is returned unchanged by a second
verify, and the webhook run on the pending sample overwrites the record
with the success-settled version. -/
theorem C2_witness :
    (PaymentController.verifyPayment sampleSettledDB (some "PAY-1")
        (GwVerifyResult.err "again")).2.1 = sampleSettledDB ∧
    findPaymentByReference
        (PaymentController.processSuccessfulCharge sampleDB sampleCharge
          PaymentController.noFaults).1 "PAY-1" =
      some (webhookSettled samplePayment sampleCharge) :=
  ⟨C2_amended_status_overwritten.1 sampleSettledDB "PAY-1"
      (webhookSettled samplePayment sampleCharge) (GwVerifyResult.err "again")
      (by decide) (by decide),
    C2_amended_status_overwritten.2 sampleDB sampleCharge samplePayment (by decide)⟩

/-- C3 counterexample: a verify call and a webhook delivery for the same
reference and the same success outcome do not result in exactly one cascade
execution.  Under the legal schedule in which the verify call completes
first and the webhook runs second, two Application-update writes are
committed: the webhook path re-runs the cascade because no conditional
read-modify-write on `verified` guards it. -/
theorem C3_counterexample :
    applicationUpdates
        ((PaymentController.verifyPayment sampleDB (some "PAY-1")
            (GwVerifyResult.ok { status := "success", paid_at := 500 })).2.2) +
      applicationUpdates
        ((PaymentController.processSuccessfulCharge
            (PaymentController.verifyPayment sampleDB (some "PAY-1")
                (GwVerifyResult.ok { status := "success", paid_at := 500 })).2.1
            sampleCharge PaymentController.noFaults).2.1) = 2 := by decide

/-- C3 amended: the exactly-one-cascade guarantee holds only for the
schedule in which the webhook settles the payment before the verify call
runs: the webhook run executes exactly one cascade (one Application-update
write), and the subsequent verify call — with any gateway outcome — hits
the `verified` short-circuit, commits no transition and runs no cascade.
In the opposite order a second cascade is committed (see the
counterexample); no atomic conditional read-modify-write primitive exists
in the code, both paths write with plain `save()`. -/
theorem C3_amended_webhook_then_verify :
    ∀ (db : DB) (d : ChargeData) (p : Payment) (gw : GwVerifyResult),
      findPaymentByReference db d.reference = some p →
      applicationUpdates
          ((PaymentController.processSuccessfulCharge db d
              PaymentController.noFaults).2.1) = 1 ∧
      PaymentController.verifyPayment
          (PaymentController.processSuccessfulCharge db d
            PaymentController.noFaults).1 (some d.reference) gw =
        ({ status := 200, success := true, dataReference := none,
           payment := some (webhookSettled p d) },
          (PaymentController.processSuccessfulCharge db d
            PaymentController.noFaults).1, []) := by
  intro db d p gw hp
  constructor
  · rw [trace_processSuccessfulCharge db d p hp]
    simp [applicationUpdates, isAppUpdate]
  · have hf := find?_processSuccessfulCharge db d p hp
    simp [PaymentController.verifyPayment, hf, webhookSettled_verified]

/-- C3 witness: on the sample state, the webhook-then-verify schedule
executes one cascade and the verify call returns the settled record with no
further writes. -/
theorem C3_witness :
    applicationUpdates
        ((PaymentController.processSuccessfulCharge sampleDB sampleCharge
            PaymentController.noFaults).2.1) = 1 ∧
    PaymentController.verifyPayment
        (PaymentController.processSuccessfulCharge sampleDB sampleCharge
          PaymentController.noFaults).1 (some "PAY-1") (GwVerifyResult.err "race") =
      ({ status := 200, success := true, dataReference := none,
         payment := some (webhookSettled samplePayment sampleCharge) },
        (PaymentController.processSuccessfulCharge sampleDB sampleCharge
          PaymentController.noFaults).1, []) :=
  C3_amended_webhook_then_verify sampleDB sampleCharge samplePayment
    (GwVerifyResult.err "race") (by decide)

/-- After a verify call settles an unverified payment (any gateway outcome),
the payments collection equals that of saving the settled record — the
cascade steps only touch applications and users. -/
theorem payments_verifySettle (db : DB) (ref : String) (p : Payment) (v : VerifyData)
    (hp : findPaymentByReference db ref = some p)
    (hv : p.verified = false) :
    ((PaymentController.verifyPayment db (some ref) (GwVerifyResult.ok v)).2.1).payments =
      (savePayment db (verifySettled p v)).payments := by
  cases hc : (v.status == "success") with
  | true =>
    simp [PaymentController.verifyPayment, hp, hv, verifySettled_status, hc,
      userAddEnrolledProgram, applicationEnroll]
  | false =>
    simp [PaymentController.verifyPayment, hp, hv, verifySettled_status, hc,
      applicationPayFailed]

/-- C4 counterexample: with no webhook secret configured, the signature check
does not reject — it returns `true` for an arbitrary payload and signature
(here with a concrete HMAC function), so the claimed fail-closed behavior
does not hold in any context. -/
theorem C4_counterexample :
    PaymentService.verifyWebhookSignature (fun _ _ => "") none "rawbody"
      "forged-signature" = true := rfl

/-- C4 amended: webhook authentication fails open.  When no webhook secret
is configured, `verifyWebhookSignature` accepts every webhook (returns
`true`), in every context — there is no production/non-production
distinction.  When a secret is configured, the check compares the
HMAC-SHA512 of the serialized payload under the secret with the provided
signature. -/
theorem C4_amended_fail_open :
    ∀ (hm : String → String → String) (payloadBytes sig : String),
      PaymentService.verifyWebhookSignature hm none payloadBytes sig = true ∧
      ∀ secret : String,
        PaymentService.verifyWebhookSignature hm (some secret) payloadBytes sig =
          (hm secret payloadBytes == sig) :=
  fun _ _ _ => ⟨rfl, fun _ => rfl⟩

/-- C5 counterexample: an authenticated `charge.success` webhook — with no
injected fault at all — is answered 500, not 200, because the handler is
registered unbound and `this.processSuccessfulCharge` throws. -/
theorem C5_counterexample :
    (PaymentController.handleWebhook (fun _ _ => "sig") (some "secret") false
        "charge.success" sampleCharge "rawbody" "sig" PaymentController.noFaults
        sampleDB).1.status = 500 := by decide

/-- C5 amended: with the handler registered unbound (as the route does),
only authenticated webhooks with unrecognized event types are acknowledged
with 200 (and leave the state untouched); the recognized event types
(`charge.success`, `transfer.success`, `invoice.payment_failed`) are all
answered 500, because dispatch throws on the undefined receiver or the
missing method.  Moreover even with a bound receiver, a failing cascade
step inside `charge.success` processing is answered 500, not 200, because
`processSuccessfulCharge` re-throws. -/
theorem C5_amended_webhook_acks :
    (∀ (hm : String → String → String) (sec : Option String) (event : String)
        (d : ChargeData) (raw sig : String) (f : PaymentController.Faults) (db : DB),
        PaymentService.verifyWebhookSignature hm sec raw sig = true →
        event ≠ "charge.success" → event ≠ "transfer.success" →
        event ≠ "invoice.payment_failed" →
        PaymentController.handleWebhook hm sec false event d raw sig f db =
          ({ status := 200, success := true, dataReference := none, payment := none },
            db, [])) ∧
    (∀ (hm : String → String → String) (sec : Option String) (event : String)
        (d : ChargeData) (raw sig : String) (f : PaymentController.Faults) (db : DB),
        PaymentService.verifyWebhookSignature hm sec raw sig = true →
        (event = "charge.success" ∨ event = "transfer.success" ∨
          event = "invoice.payment_failed") →
        (PaymentController.handleWebhook hm sec false event d raw sig f db).1.status =
          500) ∧
    ((PaymentController.handleWebhook (fun _ _ => "sig") (some "secret") true
        "charge.success" sampleCharge "rawbody" "sig"
        { appUpdateFails := false, userUpdateFails := true } sampleDB).1.status = 500) := by
  refine ⟨?_, ?_, by decide⟩
  · intro hm sec event d raw sig f db hvalid h1 h2 h3
    simp [PaymentController.handleWebhook, hvalid, beq_eq_false_iff_ne.mpr h1,
      beq_eq_false_iff_ne.mpr h2, beq_eq_false_iff_ne.mpr h3]
  · intro hm sec event d raw sig f db hvalid hev
    rcases hev with h | h | h <;> subst h <;>
      simp [PaymentController.handleWebhook, hvalid]

/-- C5 witness: an authenticated webhook with an unrecognized event type is
acknowledged 200 with no state change, while an authenticated
`transfer.success` webhook is answered 500. -/
theorem C5_witness :
    PaymentController.handleWebhook (fun _ _ => "sig") (some "secret") false
        "subscription.create" sampleCharge "rawbody" "sig"
        PaymentController.noFaults sampleDB =
      ({ status := 200, success := true, dataReference := none, payment := none },
        sampleDB, []) ∧
    (PaymentController.handleWebhook (fun _ _ => "sig") (some "secret") false
        "transfer.success" sampleCharge "rawbody" "sig"
        PaymentController.noFaults sampleDB).1.status = 500 :=
  ⟨C5_amended_webhook_acks.1 (fun _ _ => "sig") (some "secret") "subscription.create"
      sampleCharge "rawbody" "sig" PaymentController.noFaults sampleDB
      (by decide) (by decide) (by decide) (by decide),
    C5_amended_webhook_acks.2.1 (fun _ _ => "sig") (some "secret") "transfer.success"
      sampleCharge "rawbody" "sig" PaymentController.noFaults sampleDB
      (by decide) (Or.inr (Or.inl rfl))⟩

/-- C7 counterexample: re-initializing while the sample non-expired pending
Payment (reference `PAY-1`) exists returns a checkout session carrying the
gateway's fresh reference `PSTK-REF-2`, not the Payment's reference: the
database is unchanged (so the stored Payment still holds `PAY-1`), and the
session reference differs from it — a new reference is introduced and the
session is not tied to the Payment's reference. -/
theorem C7_counterexample :
    (PaymentController.initializePayment sampleDB sampleInitRequest 100 99 "PAY-NEW"
        (GwInitResult.ok "url" "PSTK-REF-2" "ac")).1.dataReference =
      some "PSTK-REF-2" ∧
    (PaymentController.initializePayment sampleDB sampleInitRequest 100 99 "PAY-NEW"
        (GwInitResult.ok "url" "PSTK-REF-2" "ac")).2.1 = sampleDB ∧
    samplePayment.reference = "PAY-1" ∧ ("PSTK-REF-2" : String) ≠ "PAY-1" := by decide

/-- C7 amended: re-initializing for an Application with a non-expired
pending Payment creates no new Payment and performs no write at all — the
database is returned unchanged, so the existing Payment (its reference
included) is untouched — and the response carries the checkout session of a
fresh gateway call, whose reference is the gateway's new one; that new
reference is not written back to the Payment, whose stored reference
remains the old one. -/
theorem C7_amended_reuse (db : DB) (req : InitRequest) (app : Application)
    (ep : Payment) (now : Int) (freshId : Nat) (freshRef url gwRef ac : String)
    (hApp : findApplicationById db req.applicationId = some app)
    (hPending : findPendingPaymentByApplication db req.applicationId = some ep)
    (hNotExpired : ¬ ep.expiresAt < now) :
    PaymentController.initializePayment db req now freshId freshRef
        (GwInitResult.ok url gwRef ac) =
      ({ status := 200, success := true, dataReference := some gwRef, payment := none },
        db, []) := by
  simp [PaymentController.initializePayment, hApp, hPending, hNotExpired]

/-- C7 witness: on the sample state the reuse branch answers 200 with the
gateway's session reference and changes nothing. -/
theorem C7_witness :
    findPendingPaymentByApplication sampleDB 20 = some samplePayment ∧
    ¬ samplePayment.expiresAt < (100 : Int) ∧
    PaymentController.initializePayment sampleDB sampleInitRequest 100 99 "PAY-NEW"
        (GwInitResult.ok "url" "PSTK-REF-9" "ac") =
      ({ status := 200, success := true, dataReference := some "PSTK-REF-9",
         payment := none }, sampleDB, []) :=
  ⟨by decide, by decide,
    C7_amended_reuse sampleDB sampleInitRequest sampleApplication samplePayment
      100 99 "PAY-NEW" "url" "PSTK-REF-9" "ac" (by decide) (by decide) (by decide)⟩

/-- C8 counterexample: settling the sample pending Payment through the
verify endpoint with a failed gateway outcome (`paid_at = 7`) stores the
Payment with status `failed` and `paidAt` assigned — `paidAt` is set on a
transition to `failed`, contradicting set-only-on-success. -/
theorem C8_counterexample :
    ((findPaymentByReference
        (PaymentController.verifyPayment sampleDB (some "PAY-1")
            (GwVerifyResult.ok { status := "failed", paid_at := 7 })).2.1
        "PAY-1").map Payment.paidAt = some (some 7)) ∧
    ((findPaymentByReference
        (PaymentController.verifyPayment sampleDB (some "PAY-1")
            (GwVerifyResult.ok { status := "failed", paid_at := 7 })).2.1
        "PAY-1").map Payment.status = some PStatus.failed) := by decide

/-- C8 amended: the verify endpoint assigns `paidAt` on every settle,
whatever the outcome: for any unverified payment and any gateway data, the
stored record afterwards is exactly `verifySettled p v`, whose `paidAt` is
`some v.paid_at` — also when the computed status is `failed`.  (The webhook
success path likewise assigns `paidAt`; only there the transition is always
to `success`.) -/
theorem C8_amended_paidAt_always_set (db : DB) (ref : String) (p : Payment)
    (v : VerifyData)
    (hp : findPaymentByReference db ref = some p)
    (hv : p.verified = false) :
    findPaymentByReference
        (PaymentController.verifyPayment db (some ref) (GwVerifyResult.ok v)).2.1 ref =
      some (verifySettled p v) ∧
    (verifySettled p v).paidAt = some v.paid_at := by
  refine ⟨?_, verifySettled_paidAt p v⟩
  rw [findPaymentByReference_congr (payments_verifySettle db ref p v hp hv)]
  exact find?_savePayment db ref p (verifySettled p v) hp
    (verifySettled_id p v) (verifySettled_reference p v)

/-- C8 witness: instantiating the amended claim on the sample state with a
failed outcome shows the stored record carries `paidAt = some 7` despite
status `failed`. -/
theorem C8_witness :
    findPaymentByReference
        (PaymentController.verifyPayment sampleDB (some "PAY-1")
          (GwVerifyResult.ok { status := "abandoned", paid_at := 7 })).2.1 "PAY-1" =
      some (verifySettled samplePayment { status := "abandoned", paid_at := 7 }) ∧
    (verifySettled samplePayment { status := "abandoned", paid_at := 7 }).paidAt =
      some 7 :=
  C8_amended_paidAt_always_set sampleDB "PAY-1" samplePayment
    { status := "abandoned", paid_at := 7 } (by decide) (by decide)

end Binarify
